import Mathlib

/-!
# Neutree controllers: a shallow embedding

The registry controllers (`controllers/image_registry_controller.go`,
`controllers/model_registry_controller.go`) and the generic work loop
(`controllers/base_controller.go`) are embedded as pure functions.  The SSH
command runner, of which only the test file is at hand, is modelled from its
specification.

Conventions of the embedding.

* A Go `error` value is `Option GoError`; `nil` is `none`.
* A Go method that mutates `obj` through its pointer returns the mutated
  resource in the `obj` field of its result.
* Calls to collaborators (storage, docker client, model-registry client,
  work queue, reconciler) are recorded, in program order, in a list of calls.
  What a collaborator answers is given by a function of the calls made so far
  in the current invocation and of the arguments, so a collaborator may answer
  differently each time it is called.  Collaborators do not write to `obj`.
* `klog` logging has no effect on control flow and is left out.
-/

namespace Neutree

/-! ## Errors (`github.com/pkg/errors`) -/

/-- Non-nil Go error values: one created from a message, or one wrapping a
cause with a message. -/
inductive GoError where
  | New (message : String)
  | withMessage (cause : GoError) (message : String)
deriving DecidableEq, Repr, Inhabited

/-- The `Error()` method: a wrapped error prints as `message: cause`. -/
def GoError.Error : GoError → String
  | .New message => message
  | .withMessage cause message => message ++ ": " ++ cause.Error

/-- The Go interface type `error`; `none` is `nil`. -/
abbrev error := Option GoError

/-- The function `errors.New`. -/
def errors.New (message : String) : error := some (GoError.New message)

/-- The function `errors.Wrap`: wrapping `nil` yields `nil`. -/
def errors.Wrap (err : error) (message : String) : error :=
  match err with
  | none => none
  | some e => some (GoError.withMessage e message)

/-- The function `strconv.Itoa`: the decimal string of an integer. -/
def strconv.Itoa (i : Int) : String := toString i

/-! ## Resource model (`api/v1`) -/

/-- Resource metadata, with the fields the controllers read. -/
structure v1.Metadata where
  Name : String
  DeletionTimestamp : String
deriving DecidableEq, Repr, Inhabited

/-- Phases are a Go string type. -/
abbrev v1.ImageRegistryPhase := String

/-- Modelled from the spec: the value of the constant `v1.ImageRegistryPhaseCONNECTED`
(declared in `api/v1`), written `CONNECTED` in the spec. -/
def v1.ImageRegistryPhaseCONNECTED : v1.ImageRegistryPhase := "CONNECTED"

/-- Modelled from the spec: the value of the constant `v1.ImageRegistryPhaseFAILED`
(declared in `api/v1`), written `FAILED` in the spec. -/
def v1.ImageRegistryPhaseFAILED : v1.ImageRegistryPhase := "FAILED"

/-- Modelled from the spec: the value of the constant `v1.ImageRegistryPhaseDELETED`
(declared in `api/v1`), written `DELETED` in the spec. -/
def v1.ImageRegistryPhaseDELETED : v1.ImageRegistryPhase := "DELETED"

/-- Credentials of an image registry, as read by `connectImageRegistry`. -/
structure v1.ImageRegistryAuthConfig where
  Username : String
  Password : String
  IdentityToken : String
deriving DecidableEq, Repr, Inhabited

/-- Desired configuration of an image registry. -/
structure v1.ImageRegistrySpec where
  URL : String
  AuthConfig : v1.ImageRegistryAuthConfig
deriving DecidableEq, Repr, Inhabited

/-- Status document of an image registry. -/
structure v1.ImageRegistryStatus where
  LastTransitionTime : String := ""
  Phase : v1.ImageRegistryPhase := ""
  ErrorMessage : String := ""
deriving DecidableEq, Repr, Inhabited

/-- An image registry resource. -/
structure v1.ImageRegistry where
  ID : Int
  Metadata : v1.Metadata
  Spec : v1.ImageRegistrySpec
  Status : v1.ImageRegistryStatus
deriving DecidableEq, Repr, Inhabited

/-- The docker type `registry.AuthConfig`, with the fields the controller sets. -/
structure registry.AuthConfig where
  Username : String
  Password : String
  ServerAddress : String
  IdentityToken : String
  RegistryToken : String
deriving DecidableEq, Repr, Inhabited

/-! ## ImageRegistry controller -/

/-- Collaborator calls made by the ImageRegistry controller. -/
inductive ImageCall where
  | RegistryLogin (authConfig : registry.AuthConfig)
  | UpdateImageRegistry (id : String) (obj : v1.ImageRegistry)
  | DeleteImageRegistry (id : String)
deriving DecidableEq, Repr

/-- The storage status updates among the calls: key and written resource. -/
def ImageCall.updates (calls : List ImageCall) : List (String × v1.ImageRegistry) :=
  calls.filterMap fun
    | .UpdateImageRegistry id obj => some (id, obj)
    | _ => none

/-- The storage deletes among the calls: their keys. -/
def ImageCall.deletes (calls : List ImageCall) : List String :=
  calls.filterMap fun
    | .DeleteImageRegistry id => some id
    | _ => none

/-- The controller with its collaborators: the storage, the docker client and
the clock.  Each answer may depend on the calls made so far. -/
structure ImageRegistryController where
  UpdateImageRegistry : List ImageCall → String → v1.ImageRegistry → error
  DeleteImageRegistry : List ImageCall → String → error
  RegistryLogin : List ImageCall → registry.AuthConfig → error
  Now : List ImageCall → String

/-- What a controller method leaves behind: the returned error, the resource
as mutated through its pointer, and the calls made so far. -/
structure ImageResult where
  ret : error
  obj : v1.ImageRegistry
  calls : List ImageCall
deriving DecidableEq, Repr

/-- The `authConfig` literal built at the start of `connectImageRegistry`. -/
def registryAuthConfig (imageRegistry : v1.ImageRegistry) : registry.AuthConfig :=
  { Username := imageRegistry.Spec.AuthConfig.Username
    Password := imageRegistry.Spec.AuthConfig.Password
    ServerAddress := imageRegistry.Spec.URL
    IdentityToken := imageRegistry.Spec.AuthConfig.IdentityToken
    RegistryToken := imageRegistry.Spec.AuthConfig.IdentityToken }

/-- The method `ImageRegistryController.connectImageRegistry`. -/
def ImageRegistryController.connectImageRegistry (c : ImageRegistryController)
    (calls : List ImageCall) (imageRegistry : v1.ImageRegistry) : error × List ImageCall :=
  let authConfig := registryAuthConfig imageRegistry
  let err := c.RegistryLogin calls authConfig
  let calls := calls ++ [ImageCall.RegistryLogin authConfig]
  if err.isSome then
    (errors.Wrap err "image registry login failed", calls)
  else
    (none, calls)

/-- The method `ImageRegistryController.updateStatus`. -/
def ImageRegistryController.updateStatus (c : ImageRegistryController)
    (calls : List ImageCall) (obj : v1.ImageRegistry) (phase : v1.ImageRegistryPhase)
    (err : error) : ImageResult :=
  let obj : v1.ImageRegistry :=
    { obj with Status := { LastTransitionTime := c.Now calls, Phase := phase } }
  let obj : v1.ImageRegistry :=
    match err with
    | some e => { obj with Status := { obj.Status with ErrorMessage := e.Error } }
    | none => obj
  let updateStatusErr := c.UpdateImageRegistry calls (strconv.Itoa obj.ID) obj
  let calls := calls ++ [ImageCall.UpdateImageRegistry (strconv.Itoa obj.ID) obj]
  if err.isSome then
    ⟨errors.Wrap updateStatusErr ("failed to update image registry " ++ obj.Metadata.Name),
      obj, calls⟩
  else
    ⟨updateStatusErr, obj, calls⟩

/-- The method `ImageRegistryController.sync`.  The result parameter is
unnamed, so the deferred status writer reads the local `err` (the error of
`connectImageRegistry`) and cannot change the returned value. -/
def ImageRegistryController.sync (c : ImageRegistryController)
    (obj : v1.ImageRegistry) : ImageResult :=
  if obj.Metadata.DeletionTimestamp ≠ "" then
    if obj.Status.Phase = v1.ImageRegistryPhaseDELETED then
      let err := c.DeleteImageRegistry [] (strconv.Itoa obj.ID)
      let calls := [ImageCall.DeleteImageRegistry (strconv.Itoa obj.ID)]
      if err.isSome then
        ⟨errors.Wrap err ("failed to delete image registry " ++ obj.Metadata.Name), obj, calls⟩
      else
        ⟨none, obj, calls⟩
    else
      let r := c.updateStatus [] obj v1.ImageRegistryPhaseDELETED none
      if r.ret.isSome then
        ⟨errors.Wrap r.ret ("failed to update image registry " ++ obj.Metadata.Name),
          r.obj, r.calls⟩
      else
        ⟨none, r.obj, r.calls⟩
  else
    let (err, calls) := c.connectImageRegistry [] obj
    let ret : error :=
      if err.isSome then
        errors.Wrap err ("failed to connect image registry " ++ obj.Metadata.Name)
      else
        none
    -- the deferred function
    let phase := if err.isSome then v1.ImageRegistryPhaseFAILED else v1.ImageRegistryPhaseCONNECTED
    let r := c.updateStatus calls obj phase err
    ⟨ret, r.obj, r.calls⟩

/-! ## ModelRegistry controller -/

/-- Phases are a Go string type. -/
abbrev v1.ModelRegistryPhase := String

/-- Modelled from the spec: the value of the constant `v1.ModelRegistryPhasePENDING`
(declared in `api/v1`), written `PENDING` in the spec. -/
def v1.ModelRegistryPhasePENDING : v1.ModelRegistryPhase := "PENDING"

/-- Modelled from the spec: the value of the constant `v1.ModelRegistryPhaseCONNECTED`
(declared in `api/v1`), written `CONNECTED` in the spec. -/
def v1.ModelRegistryPhaseCONNECTED : v1.ModelRegistryPhase := "CONNECTED"

/-- Modelled from the spec: the value of the constant `v1.ModelRegistryPhaseFAILED`
(declared in `api/v1`), written `FAILED` in the spec. -/
def v1.ModelRegistryPhaseFAILED : v1.ModelRegistryPhase := "FAILED"

/-- Modelled from the spec: the value of the constant `v1.ModelRegistryPhaseDELETED`
(declared in `api/v1`), written `DELETED` in the spec. -/
def v1.ModelRegistryPhaseDELETED : v1.ModelRegistryPhase := "DELETED"

/-- Status document of a model registry. -/
structure v1.ModelRegistryStatus where
  LastTransitionTime : String := ""
  Phase : v1.ModelRegistryPhase := ""
  ErrorMessage : String := ""
deriving DecidableEq, Repr, Inhabited

/-- A model registry resource, with the fields the controller reads or writes
(its spec is only read by the domain client factory). -/
structure v1.ModelRegistry where
  ID : Int
  Metadata : v1.Metadata
  Status : v1.ModelRegistryStatus
deriving DecidableEq, Repr, Inhabited

/-- Collaborator calls made by the ModelRegistry controller. -/
inductive ModelCall where
  | New (obj : v1.ModelRegistry)
  | Connect
  | Disconnect
  | HealthyCheck
  | UpdateModelRegistry (id : String) (obj : v1.ModelRegistry)
  | DeleteModelRegistry (id : String)
deriving DecidableEq, Repr

/-- The storage status updates among the calls: key and written resource. -/
def ModelCall.updates (calls : List ModelCall) : List (String × v1.ModelRegistry) :=
  calls.filterMap fun
    | .UpdateModelRegistry id obj => some (id, obj)
    | _ => none

/-- The storage deletes among the calls: their keys. -/
def ModelCall.deletes (calls : List ModelCall) : List String :=
  calls.filterMap fun
    | .DeleteModelRegistry id => some id
    | _ => none

/-- The interface `model_registry.ModelRegistry` of the domain client. -/
structure model_registry.ModelRegistry where
  Connect : List ModelCall → error
  Disconnect : List ModelCall → error
  HealthyCheck : List ModelCall → Bool

/-- The controller with its collaborators: the storage, the client factory
`model_registry.New` and the clock. -/
structure ModelRegistryController where
  UpdateModelRegistry : List ModelCall → String → v1.ModelRegistry → error
  DeleteModelRegistry : List ModelCall → String → error
  New : v1.ModelRegistry → Except GoError model_registry.ModelRegistry
  Now : List ModelCall → String

/-- What a controller method leaves behind: the returned error, the resource
as mutated through its pointer, and the calls made so far. -/
structure ModelResult where
  ret : error
  obj : v1.ModelRegistry
  calls : List ModelCall
deriving DecidableEq, Repr

/-- The method `ModelRegistryController.updateStatus`. -/
def ModelRegistryController.updateStatus (c : ModelRegistryController)
    (calls : List ModelCall) (obj : v1.ModelRegistry) (phase : v1.ModelRegistryPhase)
    (err : error) : ModelResult :=
  let obj : v1.ModelRegistry :=
    { obj with Status := { LastTransitionTime := c.Now calls, Phase := phase } }
  let obj : v1.ModelRegistry :=
    match err with
    | some e => { obj with Status := { obj.Status with ErrorMessage := e.Error } }
    | none => obj
  let updateStatusErr := c.UpdateModelRegistry calls (strconv.Itoa obj.ID) obj
  let calls := calls ++ [ModelCall.UpdateModelRegistry (strconv.Itoa obj.ID) obj]
  if err.isSome then
    ⟨errors.Wrap updateStatusErr ("failed to update model registry " ++ obj.Metadata.Name),
      obj, calls⟩
  else
    ⟨updateStatusErr, obj, calls⟩

/-- The phase dispatch of `ModelRegistryController.sync` (the statements after
the `defer`): the value it returns, and the calls made. -/
def ModelRegistryController.syncDispatch (modelRegistry : model_registry.ModelRegistry)
    (calls : List ModelCall) (obj : v1.ModelRegistry) : error × List ModelCall :=
  if obj.Status.Phase = "" ∨ obj.Status.Phase = v1.ModelRegistryPhasePENDING then
    let err := modelRegistry.Connect calls
    let calls := calls ++ [ModelCall.Connect]
    if err.isSome then
      (errors.Wrap err ("failed to connect model registry " ++ obj.Metadata.Name), calls)
    else
      (none, calls)
  else if obj.Status.Phase = v1.ModelRegistryPhaseFAILED then
    let err := modelRegistry.Disconnect calls
    let calls := calls ++ [ModelCall.Disconnect]
    if err.isSome then
      (errors.Wrap err ("failed to disconnect model registry " ++ obj.Metadata.Name), calls)
    else
      let err := modelRegistry.Connect calls
      let calls := calls ++ [ModelCall.Connect]
      if err.isSome then
        (errors.Wrap err ("failed to connect model registry " ++ obj.Metadata.Name), calls)
      else
        (none, calls)
  else if obj.Status.Phase = v1.ModelRegistryPhaseCONNECTED then
    let healthy := modelRegistry.HealthyCheck calls
    let calls := calls ++ [ModelCall.HealthyCheck]
    if !healthy then
      (errors.New "health check failed", calls)
    else
      (none, calls)
  else
    (none, calls)

/-- The method `ModelRegistryController.sync`.  The result parameter is named
`err`, so each `return` stores its value in `err` before the deferred status
writer runs, and the writer reads that value. -/
def ModelRegistryController.sync (c : ModelRegistryController)
    (obj : v1.ModelRegistry) : ModelResult :=
  match c.New obj with
  | .error e => ⟨some e, obj, [ModelCall.New obj]⟩
  | .ok modelRegistry =>
    let calls := [ModelCall.New obj]
    if obj.Metadata.DeletionTimestamp ≠ "" then
      if obj.Status.Phase = v1.ModelRegistryPhaseDELETED then
        let err := c.DeleteModelRegistry calls (strconv.Itoa obj.ID)
        let calls := calls ++ [ModelCall.DeleteModelRegistry (strconv.Itoa obj.ID)]
        if err.isSome then
          ⟨errors.Wrap err ("failed to delete model registry " ++ obj.Metadata.Name), obj, calls⟩
        else
          ⟨none, obj, calls⟩
      else
        let err := modelRegistry.Disconnect calls
        let calls := calls ++ [ModelCall.Disconnect]
        if err.isSome then
          ⟨errors.Wrap err ("failed to disconnect model registry " ++ obj.Metadata.Name),
            obj, calls⟩
        else
          let r := c.updateStatus calls obj v1.ModelRegistryPhaseDELETED none
          if r.ret.isSome then
            ⟨errors.Wrap r.ret ("failed to update model registry " ++ obj.Metadata.Name),
              r.obj, r.calls⟩
          else
            ⟨none, r.obj, r.calls⟩
    else
      let (err, calls) := ModelRegistryController.syncDispatch modelRegistry calls obj
      -- the deferred function
      let phase :=
        if err.isSome then v1.ModelRegistryPhaseFAILED else v1.ModelRegistryPhaseCONNECTED
      if obj.Status.Phase = phase then
        ⟨err, obj, calls⟩
      else
        let r := c.updateStatus calls obj phase err
        ⟨err, r.obj, r.calls⟩

/-! ## The generic work loop (`base_controller.go`) -/

/-- Calls made by the work loop on the queue and on the reconciler.  Work
items have the Go type `interface{}`, here a type parameter. -/
inductive QueueCall (Item : Type) where
  | Get
  | Done (item : Item)
  | Add (item : Item)
  | ListObjects
  | ProcessObject (obj : Item)
  | Sync (obj : Item)
deriving DecidableEq, Repr

/-- The items marked done among the calls. -/
def QueueCall.dones {Item : Type} (calls : List (QueueCall Item)) : List Item :=
  calls.filterMap fun
    | .Done item => some item
    | _ => none

/-- The items added to the queue among the calls. -/
def QueueCall.adds {Item : Type} (calls : List (QueueCall Item)) : List Item :=
  calls.filterMap fun
    | .Add item => some item
    | _ => none

/-- The objects handed to `Sync` among the calls. -/
def QueueCall.syncs {Item : Type} (calls : List (QueueCall Item)) : List Item :=
  calls.filterMap fun
    | .Sync obj => some obj
    | _ => none

/-- The interface `Reconciler`. -/
structure Reconciler (Item : Type) where
  Sync : List (QueueCall Item) → Item → error
  ListObjects : List (QueueCall Item) → List Item × error
  ProcessObject : List (QueueCall Item) → Item → Item × error

/-- The struct `BaseController`; of its queue, the answer of `Get` (the item and
the shutdown flag, once the blocking call has returned) is what the loop reads. -/
structure BaseController (Item : Type) where
  Get : List (QueueCall Item) → Item × Bool
  workers : Int
  syncInterval : Int

/-- The method `BaseController.processNextWorkItem`: the returned flag and the
calls made.  `Done` is deferred, so it runs last on both return paths after
`Get` succeeded; the error of `Sync` is logged and dropped. -/
def BaseController.processNextWorkItem {Item : Type} (bc : BaseController Item)
    (r : Reconciler Item) : Bool × List (QueueCall Item) :=
  let (key, quit) := bc.Get []
  let calls : List (QueueCall Item) := [QueueCall.Get]
  if quit then
    (false, calls)
  else
    let (obj, err) := r.ProcessObject calls key
    let calls := calls ++ [QueueCall.ProcessObject key]
    if err.isSome then
      (true, calls ++ [QueueCall.Done key])
    else
      let _err := r.Sync calls obj
      let calls := calls ++ [QueueCall.Sync obj]
      (true, calls ++ [QueueCall.Done key])

/-- The method `BaseController.reconcileAll`. -/
def BaseController.reconcileAll {Item : Type} (_bc : BaseController Item)
    (r : Reconciler Item) : error × List (QueueCall Item) :=
  let (objs, err) := r.ListObjects []
  let calls : List (QueueCall Item) := [QueueCall.ListObjects]
  if err.isSome then
    (err, calls)
  else
    (none, calls ++ objs.map QueueCall.Add)

/-! ## The SSH command runner -/

/-- The Go function `strings.Contains`, on the characters of the strings. -/
def strings.Contains (s substr : String) : Prop := substr.data <:+: s.data

instance (s substr : String) : Decidable (strings.Contains s substr) := by
  unfold strings.Contains
  infer_instance

/-- Modelled from the spec: the injected executor of section 6,
`Execute(ctx, programName, args)`, which answers with output and error. -/
abbrev Executor := String → List String → String × error

/-- Modelled from the spec: the struct `SSHCommandRunner`, whose declaration in
`ssh_command_runner.go` is missing.  It holds the configuration of section 3
and the executor it was built with.  The argument list handed to the executor
is described in section 4.3 in prose only (transport options, environment
assignments, timeout, command, trailing shutdown), so it is a component:
a function of the arguments of `Run` other than `exitOnFail`. -/
structure SSHCommandRunner where
  nodeID : String
  clusterName : String
  sshIP : String
  sshUser : String
  sshPrivateKey : String
  sshControlPath : String
  runner : Executor
  sshArgs : String → List (String × String) → Bool → Option Nat → String → String → Bool →
    List String

/-- Modelled from the spec: the method `SSHCommandRunner.Run`, whose file
`ssh_command_runner.go` is missing (only its test is present).  Section 4.3,
steps 3 and 4: the command is executed through the injected executor; on
failure with `exitOnFail` the call returns at once with empty output and an
error prefixed as a fatal command failure; on failure without `exitOnFail` it
returns the output of the transport and an error prefixed as a remote-command
failure.  The two prefixes are the ones the tests `TestSSHCommandRunner_Run_ExitOnFail`
and `TestSSHCommandRunner_Run_WithError` look for.  The shutdown command of
step 5 changes neither the returned output nor the returned error; it is part
of the argument list. -/
def SSHCommandRunner.Run (s : SSHCommandRunner) (command : String) (exitOnFail : Bool)
    (environment : List (String × String)) (useControlMaster : Bool) (timeout : Option Nat)
    (overrideKeyPath overrideUser : String) (shutdownAfterRun : Bool) : String × error :=
  let (output, err) :=
    s.runner "ssh"
      (s.sshArgs command environment useControlMaster timeout overrideKeyPath overrideUser
        shutdownAfterRun)
  if err.isSome then
    if exitOnFail then
      ("", errors.Wrap err "command failed")
    else
      (output, errors.Wrap err "SSH command failed")
  else
    (output, none)

/-! ## Concrete inputs -/

/-- An image registry marked for deletion whose phase is `DELETED`. -/
def imageDeleted : v1.ImageRegistry :=
  { ID := 1
    Metadata := { Name := "r1", DeletionTimestamp := "2024-01-01T00:00:00Z" }
    Spec := { URL := "registry.example.com"
              AuthConfig := { Username := "u", Password := "p", IdentityToken := "" } }
    Status := { LastTransitionTime := "t0", Phase := "DELETED" } }

/-- An image registry marked for deletion whose phase is still `CONNECTED`. -/
def imageDeleting : v1.ImageRegistry :=
  { imageDeleted with Status := { LastTransitionTime := "t0", Phase := "CONNECTED" } }

/-- The image registry of the scenario in the spec, never reconciled. -/
def imageFresh : v1.ImageRegistry :=
  { imageDeleted with
    Metadata := { Name := "r1", DeletionTimestamp := "" }
    Status := {} }

/-- Collaborators that all succeed. -/
def imageControllerOk : ImageRegistryController :=
  { UpdateImageRegistry := fun _ _ _ => none
    DeleteImageRegistry := fun _ _ => none
    RegistryLogin := fun _ _ => none
    Now := fun _ => "t1" }

/-- Collaborators whose login is refused with `auth denied`. -/
def imageControllerDenied : ImageRegistryController :=
  { imageControllerOk with RegistryLogin := fun _ _ => errors.New "auth denied" }

/-- Collaborators whose storage update fails. -/
def imageControllerNoStore : ImageRegistryController :=
  { imageControllerOk with UpdateImageRegistry := fun _ _ _ => errors.New "storage down" }

/-- A domain client on which every operation succeeds. -/
def clientOk : model_registry.ModelRegistry :=
  { Connect := fun _ => none, Disconnect := fun _ => none, HealthyCheck := fun _ => true }

/-- A domain client whose `Disconnect` fails. -/
def clientNoDisconnect : model_registry.ModelRegistry :=
  { clientOk with Disconnect := fun _ => errors.New "busy" }

/-- A domain client whose health check fails. -/
def clientUnhealthy : model_registry.ModelRegistry :=
  { clientOk with HealthyCheck := fun _ => false }

/-- Collaborators of the ModelRegistry controller that all succeed, around a
given domain client. -/
def modelController (client : model_registry.ModelRegistry) : ModelRegistryController :=
  { UpdateModelRegistry := fun _ _ _ => none
    DeleteModelRegistry := fun _ _ => none
    New := fun _ => .ok client
    Now := fun _ => "t1" }

/-- Collaborators whose storage update fails, around a given domain client. -/
def modelControllerNoStore (client : model_registry.ModelRegistry) : ModelRegistryController :=
  { modelController client with UpdateModelRegistry := fun _ _ _ => errors.New "storage down" }

/-- A model registry marked for deletion whose phase is `DELETED`. -/
def modelDeleted : v1.ModelRegistry :=
  { ID := 7
    Metadata := { Name := "m1", DeletionTimestamp := "2024-01-01T00:00:00Z" }
    Status := { LastTransitionTime := "t0", Phase := "DELETED" } }

/-- A model registry marked for deletion whose phase is still `CONNECTED`. -/
def modelDeleting : v1.ModelRegistry :=
  { modelDeleted with Status := { LastTransitionTime := "t0", Phase := "CONNECTED" } }

/-- A connected model registry, not marked for deletion. -/
def modelConnected : v1.ModelRegistry :=
  { ID := 7
    Metadata := { Name := "m1", DeletionTimestamp := "" }
    Status := { LastTransitionTime := "t0", Phase := "CONNECTED" } }

/-- A work loop whose queue hands out the item `k1`. -/
def baseControllerWithItem : BaseController String :=
  { Get := fun _ => ("k1", false), workers := 1, syncInterval := 10 }

/-- A reconciler that resolves every key to `resolved` and whose `Sync` fails. -/
def reconcilerSyncFails : Reconciler String :=
  { Sync := fun _ _ => errors.New "sync failed"
    ListObjects := fun _ => ([], none)
    ProcessObject := fun _ _ => ("resolved", none) }

/-- A runner whose executor fails with `ssh failed` after the output `error`,
as in the tests. -/
def sshRunnerFailing : SSHCommandRunner :=
  { nodeID := "node1"
    clusterName := "test-cluster"
    sshIP := "127.0.0.1"
    sshUser := "test_user"
    sshPrivateKey := "test_key"
    sshControlPath := "/tmp/ssh-control/node1"
    runner := fun _ _ => ("error", errors.New "ssh failed")
    sshArgs := fun command _ _ _ _ _ _ => ["-o", "StrictHostKeyChecking=no", command] }

/-! ## Lemmas on the ModelRegistry controller -/

/-- The phase dispatch issues no storage status update. -/
theorem syncDispatch_updates (modelRegistry : model_registry.ModelRegistry)
    (calls : List ModelCall) (obj : v1.ModelRegistry) :
    ModelCall.updates (ModelRegistryController.syncDispatch modelRegistry calls obj).2
      = ModelCall.updates calls := by
  unfold ModelRegistryController.syncDispatch
  simp only [ModelCall.updates]
  split_ifs <;> simp

/-- The method `sync` on a resource without deletion marker, once the domain
client is constructed: the phase dispatch followed by the deferred writer. -/
theorem sync_of_not_deleting (c : ModelRegistryController) (obj : v1.ModelRegistry)
    (modelRegistry : model_registry.ModelRegistry)
    (hnew : c.New obj = .ok modelRegistry) (hdel : obj.Metadata.DeletionTimestamp = "") :
    c.sync obj =
      if obj.Status.Phase =
          (if (ModelRegistryController.syncDispatch modelRegistry [ModelCall.New obj] obj).1.isSome
            then v1.ModelRegistryPhaseFAILED else v1.ModelRegistryPhaseCONNECTED) then
        ⟨(ModelRegistryController.syncDispatch modelRegistry [ModelCall.New obj] obj).1, obj,
          (ModelRegistryController.syncDispatch modelRegistry [ModelCall.New obj] obj).2⟩
      else
        ⟨(ModelRegistryController.syncDispatch modelRegistry [ModelCall.New obj] obj).1,
          (c.updateStatus
            (ModelRegistryController.syncDispatch modelRegistry [ModelCall.New obj] obj).2 obj
            (if (ModelRegistryController.syncDispatch modelRegistry
                [ModelCall.New obj] obj).1.isSome
              then v1.ModelRegistryPhaseFAILED else v1.ModelRegistryPhaseCONNECTED)
            (ModelRegistryController.syncDispatch modelRegistry [ModelCall.New obj] obj).1).obj,
          (c.updateStatus
            (ModelRegistryController.syncDispatch modelRegistry [ModelCall.New obj] obj).2 obj
            (if (ModelRegistryController.syncDispatch modelRegistry
                [ModelCall.New obj] obj).1.isSome
              then v1.ModelRegistryPhaseFAILED else v1.ModelRegistryPhaseCONNECTED)
            (ModelRegistryController.syncDispatch modelRegistry
              [ModelCall.New obj] obj).1).calls⟩ := by
  unfold ModelRegistryController.sync
  rw [hnew]
  simp only [hdel, ne_eq, not_true_eq_false, if_false]

/-! ## Theorems -/

/-- C1: with the deletion marker set and the phase already `DELETED`, `sync` of
an ImageRegistry, and of a ModelRegistry whose domain client is constructed,
issues exactly one storage delete keyed by the decimal string of the id and no
status update, and returns an error exactly when that delete fails. -/
theorem sync_deleted_issues_one_delete :
    (∀ (c : ImageRegistryController) (obj : v1.ImageRegistry),
      obj.Metadata.DeletionTimestamp ≠ "" →
      obj.Status.Phase = v1.ImageRegistryPhaseDELETED →
        ImageCall.deletes (c.sync obj).calls = [strconv.Itoa obj.ID] ∧
        ImageCall.updates (c.sync obj).calls = [] ∧
        ((c.sync obj).ret ≠ none ↔ c.DeleteImageRegistry [] (strconv.Itoa obj.ID) ≠ none)) ∧
    (∀ (c : ModelRegistryController) (obj : v1.ModelRegistry)
      (modelRegistry : model_registry.ModelRegistry),
      c.New obj = .ok modelRegistry →
      obj.Metadata.DeletionTimestamp ≠ "" →
      obj.Status.Phase = v1.ModelRegistryPhaseDELETED →
        ModelCall.deletes (c.sync obj).calls = [strconv.Itoa obj.ID] ∧
        ModelCall.updates (c.sync obj).calls = [] ∧
        ((c.sync obj).ret ≠ none ↔
          c.DeleteModelRegistry [ModelCall.New obj] (strconv.Itoa obj.ID) ≠ none)) := by
  refine ⟨?_, ?_⟩
  · intro c obj hdel hphase
    unfold ImageRegistryController.sync
    rw [if_pos hdel, if_pos hphase]
    cases hd : c.DeleteImageRegistry [] (strconv.Itoa obj.ID) <;>
      simp [ImageCall.deletes, ImageCall.updates, errors.Wrap]
  · intro c obj modelRegistry hnew hdel hphase
    unfold ModelRegistryController.sync
    rw [hnew]
    simp only [if_pos hdel, if_pos hphase]
    cases hd : c.DeleteModelRegistry [ModelCall.New obj] (strconv.Itoa obj.ID) <;>
      simp [ModelCall.deletes, ModelCall.updates, errors.Wrap]

/-- Witness of C1 on a deleted image registry and a deleted model registry. -/
theorem sync_deleted_issues_one_delete_witness :
    (ImageCall.deletes (imageControllerOk.sync imageDeleted).calls = ["1"] ∧
      ImageCall.updates (imageControllerOk.sync imageDeleted).calls = [] ∧
      ((imageControllerOk.sync imageDeleted).ret ≠ none ↔
        imageControllerOk.DeleteImageRegistry [] "1" ≠ none)) ∧
    (ModelCall.deletes ((modelController clientOk).sync modelDeleted).calls = ["7"] ∧
      ModelCall.updates ((modelController clientOk).sync modelDeleted).calls = [] ∧
      (((modelController clientOk).sync modelDeleted).ret ≠ none ↔
        (modelController clientOk).DeleteModelRegistry [ModelCall.New modelDeleted] "7"
          ≠ none)) :=
  ⟨sync_deleted_issues_one_delete.1 imageControllerOk imageDeleted (by decide) (by decide),
    sync_deleted_issues_one_delete.2 (modelController clientOk) modelDeleted clientOk rfl
      (by decide) (by decide)⟩

/-- C2, as stated, fails for a ModelRegistry: with the deletion marker set and
the phase `CONNECTED`, a failing `Disconnect` makes `sync` return an error
after no storage update at all. -/
theorem sync_deleting_disconnect_failure_counterexample :
    modelDeleting.Metadata.DeletionTimestamp ≠ "" ∧
    modelDeleting.Status.Phase ≠ v1.ModelRegistryPhaseDELETED ∧
    ModelCall.updates ((modelController clientNoDisconnect).sync modelDeleting).calls = [] ∧
    ((modelController clientNoDisconnect).sync modelDeleting).calls =
      [ModelCall.New modelDeleting, ModelCall.Disconnect] := by
  decide

/-- C2 (amended): with the deletion marker set and the phase not `DELETED`,
`sync` of an ImageRegistry, whatever the storage and the docker client do, and
`sync` of a ModelRegistry whose domain client is constructed and whose
`Disconnect` succeeds, whatever the storage does, issue exactly one storage
status update, which writes phase `DELETED` under the key of the resource, and
no storage delete. -/
theorem sync_deleting_marks_deleted :
    (∀ (c : ImageRegistryController) (obj : v1.ImageRegistry),
      obj.Metadata.DeletionTimestamp ≠ "" →
      obj.Status.Phase ≠ v1.ImageRegistryPhaseDELETED →
        (∃ written, ImageCall.updates (c.sync obj).calls = [(strconv.Itoa obj.ID, written)] ∧
          written.Status.Phase = v1.ImageRegistryPhaseDELETED) ∧
        ImageCall.deletes (c.sync obj).calls = []) ∧
    (∀ (c : ModelRegistryController) (obj : v1.ModelRegistry)
      (modelRegistry : model_registry.ModelRegistry),
      c.New obj = .ok modelRegistry →
      modelRegistry.Disconnect [ModelCall.New obj] = none →
      obj.Metadata.DeletionTimestamp ≠ "" →
      obj.Status.Phase ≠ v1.ModelRegistryPhaseDELETED →
        (∃ written, ModelCall.updates (c.sync obj).calls = [(strconv.Itoa obj.ID, written)] ∧
          written.Status.Phase = v1.ModelRegistryPhaseDELETED) ∧
        ModelCall.deletes (c.sync obj).calls = []) := by
  refine ⟨?_, ?_⟩
  · intro c obj hdel hphase
    unfold ImageRegistryController.sync
    rw [if_pos hdel, if_neg hphase]
    unfold ImageRegistryController.updateStatus
    cases hu : c.UpdateImageRegistry []
        (strconv.Itoa obj.ID)
        { obj with Status := { LastTransitionTime := c.Now [],
                               Phase := v1.ImageRegistryPhaseDELETED } } <;>
      simp [ImageCall.deletes, ImageCall.updates, hu]
  · intro c obj modelRegistry hnew hdisc hdel hphase
    unfold ModelRegistryController.sync
    rw [hnew]
    simp only [if_pos hdel, if_neg hphase, hdisc]
    unfold ModelRegistryController.updateStatus
    cases hu : c.UpdateModelRegistry [ModelCall.New obj, ModelCall.Disconnect]
        (strconv.Itoa obj.ID)
        { obj with Status := { LastTransitionTime :=
                                 c.Now [ModelCall.New obj, ModelCall.Disconnect],
                               Phase := v1.ModelRegistryPhaseDELETED } } <;>
      simp [ModelCall.deletes, ModelCall.updates, hu]

/-- Witness of the amended C2 on an image registry and a model registry that
are marked for deletion while `CONNECTED`. -/
theorem sync_deleting_marks_deleted_witness :
    ((∃ written, ImageCall.updates (imageControllerNoStore.sync imageDeleting).calls =
          [("1", written)] ∧ written.Status.Phase = v1.ImageRegistryPhaseDELETED) ∧
      ImageCall.deletes (imageControllerNoStore.sync imageDeleting).calls = []) ∧
    ((∃ written, ModelCall.updates ((modelController clientOk).sync modelDeleting).calls =
          [("7", written)] ∧ written.Status.Phase = v1.ModelRegistryPhaseDELETED) ∧
      ModelCall.deletes ((modelController clientOk).sync modelDeleting).calls = []) :=
  ⟨sync_deleting_marks_deleted.1 imageControllerNoStore imageDeleting (by decide) (by decide),
    sync_deleting_marks_deleted.2 (modelController clientOk) modelDeleting clientOk rfl rfl
      (by decide) (by decide)⟩

/-- C3: without a deletion marker, whatever the previous status, `sync` of an
ImageRegistry issues exactly one storage status update and no storage delete;
when the login succeeds the written status has phase `CONNECTED` and an empty
error message and `sync` returns no error; when the login fails the written
status has phase `FAILED` and `sync` returns an error. -/
theorem image_sync_writes_status_once (c : ImageRegistryController) (obj : v1.ImageRegistry)
    (hdel : obj.Metadata.DeletionTimestamp = "") :
    ∃ written,
      ImageCall.updates (c.sync obj).calls = [(strconv.Itoa obj.ID, written)] ∧
      ImageCall.deletes (c.sync obj).calls = [] ∧
      (c.RegistryLogin [] (registryAuthConfig obj) = none →
        written.Status.Phase = v1.ImageRegistryPhaseCONNECTED ∧
        written.Status.ErrorMessage = "" ∧
        (c.sync obj).ret = none) ∧
      (c.RegistryLogin [] (registryAuthConfig obj) ≠ none →
        written.Status.Phase = v1.ImageRegistryPhaseFAILED ∧
        (c.sync obj).ret ≠ none) := by
  unfold ImageRegistryController.sync
  rw [if_neg (by simp [hdel])]
  unfold ImageRegistryController.connectImageRegistry ImageRegistryController.updateStatus
  cases hl : c.RegistryLogin [] (registryAuthConfig obj) <;>
    simp [hl, ImageCall.deletes, ImageCall.updates, errors.Wrap]

/-- Witness of C3 on the registry of the spec scenario, with a failing storage. -/
theorem image_sync_writes_status_once_witness :
    ∃ written,
      ImageCall.updates (imageControllerNoStore.sync imageFresh).calls = [("1", written)] ∧
      ImageCall.deletes (imageControllerNoStore.sync imageFresh).calls = [] ∧
      (imageControllerNoStore.RegistryLogin [] (registryAuthConfig imageFresh) = none →
        written.Status.Phase = v1.ImageRegistryPhaseCONNECTED ∧
        written.Status.ErrorMessage = "" ∧
        (imageControllerNoStore.sync imageFresh).ret = none) ∧
      (imageControllerNoStore.RegistryLogin [] (registryAuthConfig imageFresh) ≠ none →
        written.Status.Phase = v1.ImageRegistryPhaseFAILED ∧
        (imageControllerNoStore.sync imageFresh).ret ≠ none) :=
  image_sync_writes_status_once imageControllerNoStore imageFresh (by decide)

/-- C4, as stated, fails: when the login is refused with `auth denied`, the
error message written by `sync` is the message of the wrapped error,
`image registry login failed: auth denied`, not `auth denied`. -/
theorem image_sync_login_message_counterexample :
    imageFresh.Metadata.DeletionTimestamp = "" ∧
    (imageControllerDenied.RegistryLogin [] (registryAuthConfig imageFresh)).map GoError.Error
      = some "auth denied" ∧
    (ImageCall.updates (imageControllerDenied.sync imageFresh).calls).map
        (fun w => (w.2.Status.Phase, w.2.Status.ErrorMessage))
      = [("FAILED", "image registry login failed: auth denied")] ∧
    (imageControllerDenied.sync imageFresh).obj.Status.ErrorMessage ≠ "auth denied" := by
  decide

/-- C4 (amended): without a deletion marker, when the login fails with an error
of message `m`, the status written by `sync` of an ImageRegistry has phase
`FAILED` and its error message is `image registry login failed: ` followed by
`m`. -/
theorem image_sync_login_failure_message (c : ImageRegistryController)
    (obj : v1.ImageRegistry) (e : GoError)
    (hdel : obj.Metadata.DeletionTimestamp = "")
    (hlogin : c.RegistryLogin [] (registryAuthConfig obj) = some e) :
    ∃ written,
      ImageCall.updates (c.sync obj).calls = [(strconv.Itoa obj.ID, written)] ∧
      written.Status.Phase = v1.ImageRegistryPhaseFAILED ∧
      written.Status.ErrorMessage = "image registry login failed: " ++ e.Error := by
  unfold ImageRegistryController.sync
  rw [if_neg (by simp [hdel])]
  unfold ImageRegistryController.connectImageRegistry ImageRegistryController.updateStatus
  simp [hlogin, ImageCall.updates, errors.Wrap, GoError.Error, String.append_assoc]

/-- Witness of the amended C4 on the scenario of the spec. -/
theorem image_sync_login_failure_message_witness :
    ∃ written,
      ImageCall.updates (imageControllerDenied.sync imageFresh).calls = [("1", written)] ∧
      written.Status.Phase = v1.ImageRegistryPhaseFAILED ∧
      written.Status.ErrorMessage
        = "image registry login failed: " ++ (GoError.New "auth denied").Error :=
  image_sync_login_failure_message imageControllerDenied imageFresh (GoError.New "auth denied")
    (by decide) rfl

/-- C10: `updateStatus` of either controller returns an error exactly when the
storage update returned one, whatever the resource, the target phase and the
domain error `err`: with `err` set and the update succeeding it returns `nil`,
and with `err` unset it returns what the update returned. -/
theorem updateStatus_fails_iff_storage_fails :
    (∀ (c : ImageRegistryController) (calls : List ImageCall) (obj : v1.ImageRegistry)
      (phase : v1.ImageRegistryPhase) (err : error),
      ((c.updateStatus calls obj phase err).ret ≠ none ↔
        c.UpdateImageRegistry calls (strconv.Itoa obj.ID)
          (c.updateStatus calls obj phase err).obj ≠ none) ∧
      (err ≠ none →
        c.UpdateImageRegistry calls (strconv.Itoa obj.ID)
          (c.updateStatus calls obj phase err).obj = none →
        (c.updateStatus calls obj phase err).ret = none) ∧
      (err = none →
        (c.updateStatus calls obj phase err).ret =
          c.UpdateImageRegistry calls (strconv.Itoa obj.ID)
            (c.updateStatus calls obj phase err).obj)) ∧
    (∀ (c : ModelRegistryController) (calls : List ModelCall) (obj : v1.ModelRegistry)
      (phase : v1.ModelRegistryPhase) (err : error),
      ((c.updateStatus calls obj phase err).ret ≠ none ↔
        c.UpdateModelRegistry calls (strconv.Itoa obj.ID)
          (c.updateStatus calls obj phase err).obj ≠ none) ∧
      (err ≠ none →
        c.UpdateModelRegistry calls (strconv.Itoa obj.ID)
          (c.updateStatus calls obj phase err).obj = none →
        (c.updateStatus calls obj phase err).ret = none) ∧
      (err = none →
        (c.updateStatus calls obj phase err).ret =
          c.UpdateModelRegistry calls (strconv.Itoa obj.ID)
            (c.updateStatus calls obj phase err).obj)) := by
  refine ⟨?_, ?_⟩
  · intro c calls obj phase err
    unfold ImageRegistryController.updateStatus
    cases err with
    | none => simp
    | some e =>
      simp only [Option.isSome_some, if_true]
      cases hu : c.UpdateImageRegistry calls (strconv.Itoa obj.ID)
          { obj with Status := { LastTransitionTime := c.Now calls, Phase := phase,
                                 ErrorMessage := e.Error } } <;>
        simp [errors.Wrap, hu]
  · intro c calls obj phase err
    unfold ModelRegistryController.updateStatus
    cases err with
    | none => simp
    | some e =>
      simp only [Option.isSome_some, if_true]
      cases hu : c.UpdateModelRegistry calls (strconv.Itoa obj.ID)
          { obj with Status := { LastTransitionTime := c.Now calls, Phase := phase,
                                 ErrorMessage := e.Error } } <;>
        simp [errors.Wrap, hu]

/-- Witness of C10: a domain error with a succeeding update, and no domain
error with a failing update, on both controllers. -/
theorem updateStatus_fails_iff_storage_fails_witness :
    (imageControllerOk.updateStatus [] imageFresh "FAILED" (errors.New "boom")).ret = none ∧
    (imageControllerNoStore.updateStatus [] imageFresh "CONNECTED" none).ret =
      errors.New "storage down" ∧
    ((modelController clientOk).updateStatus [] modelConnected "FAILED"
      (errors.New "boom")).ret = none ∧
    ((modelControllerNoStore clientOk).updateStatus [] modelConnected "CONNECTED" none).ret =
      errors.New "storage down" :=
  ⟨(updateStatus_fails_iff_storage_fails.1 imageControllerOk [] imageFresh "FAILED"
      (errors.New "boom")).2.1 (by decide) rfl,
    (updateStatus_fails_iff_storage_fails.1 imageControllerNoStore [] imageFresh "CONNECTED"
      none).2.2 rfl,
    (updateStatus_fails_iff_storage_fails.2 (modelController clientOk) [] modelConnected
      "FAILED" (errors.New "boom")).2.1 (by decide) rfl,
    (updateStatus_fails_iff_storage_fails.2 (modelControllerNoStore clientOk) []
      modelConnected "CONNECTED" none).2.2 rfl⟩

/-- C5: for a ModelRegistry without deletion marker at phase `CONNECTED` whose
domain client reports an unhealthy connection, `sync` returns an error and
leaves the resource at phase `FAILED` with a non-empty error message, whether
or not the storage update succeeds. -/
theorem model_sync_unhealthy_fails (c : ModelRegistryController) (obj : v1.ModelRegistry)
    (modelRegistry : model_registry.ModelRegistry)
    (hnew : c.New obj = .ok modelRegistry)
    (hdel : obj.Metadata.DeletionTimestamp = "")
    (hphase : obj.Status.Phase = v1.ModelRegistryPhaseCONNECTED)
    (hcheck : modelRegistry.HealthyCheck [ModelCall.New obj] = false) :
    (c.sync obj).ret ≠ none ∧
    (c.sync obj).obj.Status.Phase = v1.ModelRegistryPhaseFAILED ∧
    (c.sync obj).obj.Status.ErrorMessage ≠ "" := by
  have hd : ModelRegistryController.syncDispatch modelRegistry [ModelCall.New obj] obj
      = (errors.New "health check failed", [ModelCall.New obj, ModelCall.HealthyCheck]) := by
    unfold ModelRegistryController.syncDispatch
    simp [hphase, hcheck, v1.ModelRegistryPhaseCONNECTED, v1.ModelRegistryPhasePENDING,
      v1.ModelRegistryPhaseFAILED]
  rw [sync_of_not_deleting c obj modelRegistry hnew hdel, hd]
  simp only [errors.New, Option.isSome_some, if_true, hphase]
  rw [if_neg (by decide)]
  unfold ModelRegistryController.updateStatus
  simp only [Option.isSome_some, if_true, GoError.Error]
  exact ⟨by simp, trivial, by decide⟩

/-- Witness of C5 on a connected registry whose client is unhealthy and whose
storage update fails. -/
theorem model_sync_unhealthy_fails_witness :
    ((modelControllerNoStore clientUnhealthy).sync modelConnected).ret ≠ none ∧
    ((modelControllerNoStore clientUnhealthy).sync modelConnected).obj.Status.Phase
      = v1.ModelRegistryPhaseFAILED ∧
    ((modelControllerNoStore clientUnhealthy).sync modelConnected).obj.Status.ErrorMessage
      ≠ "" :=
  model_sync_unhealthy_fails (modelControllerNoStore clientUnhealthy) modelConnected
    clientUnhealthy rfl (by decide) (by decide) rfl

/-- C6: for a ModelRegistry without deletion marker, when the target phase
(`CONNECTED` when `sync` returns no error, `FAILED` otherwise) equals the
current phase, `sync` issues no storage status update and leaves the status of
the resource unchanged. -/
theorem model_sync_write_suppression (c : ModelRegistryController) (obj : v1.ModelRegistry)
    (hdel : obj.Metadata.DeletionTimestamp = "")
    (htarget : (if (c.sync obj).ret.isSome then v1.ModelRegistryPhaseFAILED
        else v1.ModelRegistryPhaseCONNECTED) = obj.Status.Phase) :
    ModelCall.updates (c.sync obj).calls = [] ∧ (c.sync obj).obj.Status = obj.Status := by
  cases hnew : c.New obj with
  | error e =>
    unfold ModelRegistryController.sync
    rw [hnew]
    simp [ModelCall.updates]
  | ok modelRegistry =>
    have hs := sync_of_not_deleting c obj modelRegistry hnew hdel
    by_cases hp : obj.Status.Phase =
        (if (ModelRegistryController.syncDispatch modelRegistry
            [ModelCall.New obj] obj).1.isSome
          then v1.ModelRegistryPhaseFAILED else v1.ModelRegistryPhaseCONNECTED)
    · rw [if_pos hp] at hs
      rw [hs]
      refine ⟨?_, rfl⟩
      simp only [syncDispatch_updates]
      simp [ModelCall.updates]
    · rw [if_neg hp] at hs
      rw [hs] at htarget
      exact absurd htarget.symm hp

/-- Witness of C6 on a connected registry whose client is healthy. -/
theorem model_sync_write_suppression_witness :
    ModelCall.updates ((modelController clientOk).sync modelConnected).calls = [] ∧
    ((modelController clientOk).sync modelConnected).obj.Status = modelConnected.Status :=
  model_sync_write_suppression (modelController clientOk) modelConnected (by decide)
    (by decide)

/-- C7, as stated, fails in the second deletion pass: with the deletion marker
set and the phase already `DELETED`, `sync` does not call `Disconnect`; with a
client whose `Disconnect` would fail it still issues the storage delete and
returns no error. -/
theorem model_sync_deleted_skips_disconnect_counterexample :
    modelDeleted.Metadata.DeletionTimestamp ≠ "" ∧
    modelDeleted.Status.Phase = v1.ModelRegistryPhaseDELETED ∧
    clientNoDisconnect.Disconnect [ModelCall.New modelDeleted] ≠ none ∧
    ((modelController clientNoDisconnect).sync modelDeleted).calls =
      [ModelCall.New modelDeleted, ModelCall.DeleteModelRegistry "7"] ∧
    ((modelController clientNoDisconnect).sync modelDeleted).ret = none := by
  decide

/-- C7 (amended): for a ModelRegistry with the deletion marker set whose domain
client is constructed.  In the first pass (phase not yet `DELETED`) `sync`
calls `Disconnect` before any storage call, and when `Disconnect` fails it
returns an error and issues neither a storage update nor a storage delete.  In
the second pass (phase already `DELETED`) `sync` does not call `Disconnect`
and issues the storage delete. -/
theorem model_sync_deletion_disconnect (c : ModelRegistryController) (obj : v1.ModelRegistry)
    (modelRegistry : model_registry.ModelRegistry)
    (hnew : c.New obj = .ok modelRegistry)
    (hdel : obj.Metadata.DeletionTimestamp ≠ "") :
    (obj.Status.Phase ≠ v1.ModelRegistryPhaseDELETED →
      (∃ rest, (c.sync obj).calls = ModelCall.New obj :: ModelCall.Disconnect :: rest) ∧
      (modelRegistry.Disconnect [ModelCall.New obj] ≠ none →
        (c.sync obj).ret ≠ none ∧
        ModelCall.updates (c.sync obj).calls = [] ∧
        ModelCall.deletes (c.sync obj).calls = [])) ∧
    (obj.Status.Phase = v1.ModelRegistryPhaseDELETED →
      ModelCall.Disconnect ∉ (c.sync obj).calls ∧
      ModelCall.deletes (c.sync obj).calls = [strconv.Itoa obj.ID]) := by
  refine ⟨?_, ?_⟩
  · intro hphase
    unfold ModelRegistryController.sync
    rw [hnew]
    simp only [if_pos hdel, if_neg hphase]
    unfold ModelRegistryController.updateStatus
    cases hdisc : modelRegistry.Disconnect [ModelCall.New obj] with
    | some e => simp [hdisc, errors.Wrap, ModelCall.updates, ModelCall.deletes]
    | none =>
      simp only [hdisc, Option.isSome_none, Bool.false_eq_true, if_false]
      refine ⟨?_, fun h => absurd rfl h⟩
      split_ifs <;> simp
  · intro hphase
    unfold ModelRegistryController.sync
    rw [hnew]
    simp only [if_pos hdel, if_pos hphase]
    split_ifs <;> simp [ModelCall.deletes]

/-- Witness of the amended C7 on a registry marked for deletion whose client
refuses to disconnect. -/
theorem model_sync_deletion_disconnect_witness :
    (modelDeleting.Status.Phase ≠ v1.ModelRegistryPhaseDELETED →
      (∃ rest, ((modelController clientNoDisconnect).sync modelDeleting).calls
        = ModelCall.New modelDeleting :: ModelCall.Disconnect :: rest) ∧
      (clientNoDisconnect.Disconnect [ModelCall.New modelDeleting] ≠ none →
        ((modelController clientNoDisconnect).sync modelDeleting).ret ≠ none ∧
        ModelCall.updates ((modelController clientNoDisconnect).sync modelDeleting).calls = [] ∧
        ModelCall.deletes ((modelController clientNoDisconnect).sync modelDeleting).calls
          = [])) ∧
    (modelDeleting.Status.Phase = v1.ModelRegistryPhaseDELETED →
      ModelCall.Disconnect ∉ ((modelController clientNoDisconnect).sync modelDeleting).calls ∧
      ModelCall.deletes ((modelController clientNoDisconnect).sync modelDeleting).calls
        = [strconv.Itoa modelDeleting.ID]) :=
  model_sync_deletion_disconnect (modelController clientNoDisconnect) modelDeleting
    clientNoDisconnect rfl (by decide)

/-- C8: `processNextWorkItem` returns false exactly when `Get` reports
shutdown.  Otherwise, whatever `ProcessObject` and `Sync` return, it returns
true, marks the dequeued key done exactly once and as its last call, never
adds a key to the queue, and calls `Sync` exactly when `ProcessObject`
returned no error, on the object `ProcessObject` returned. -/
theorem processNextWorkItem_contract {Item : Type} (bc : BaseController Item)
    (r : Reconciler Item) :
    ((bc.processNextWorkItem r).1 = false ↔ (bc.Get []).2 = true) ∧
    ((bc.Get []).2 = false →
      (bc.processNextWorkItem r).1 = true ∧
      QueueCall.dones (bc.processNextWorkItem r).2 = [(bc.Get []).1] ∧
      (bc.processNextWorkItem r).2.getLast? = some (QueueCall.Done (bc.Get []).1) ∧
      QueueCall.adds (bc.processNextWorkItem r).2 = [] ∧
      (bc.processNextWorkItem r).2.take 2
        = [QueueCall.Get, QueueCall.ProcessObject (bc.Get []).1] ∧
      QueueCall.syncs (bc.processNextWorkItem r).2 =
        (if (r.ProcessObject [QueueCall.Get] (bc.Get []).1).2 = none then
          [(r.ProcessObject [QueueCall.Get] (bc.Get []).1).1]
        else [])) := by
  unfold BaseController.processNextWorkItem
  rcases hg : bc.Get [] with ⟨key, quit⟩
  cases quit with
  | true => simp
  | false =>
    rcases hp : r.ProcessObject [QueueCall.Get] key with ⟨obj, err⟩
    cases err with
    | none => simp [hp, QueueCall.dones, QueueCall.adds, QueueCall.syncs]
    | some e => simp [hp, QueueCall.dones, QueueCall.adds, QueueCall.syncs]

/-- Witness of C8 on an item whose `Sync` fails. -/
theorem processNextWorkItem_contract_witness :
    (baseControllerWithItem.processNextWorkItem reconcilerSyncFails).1 = true ∧
    QueueCall.dones (baseControllerWithItem.processNextWorkItem reconcilerSyncFails).2
      = ["k1"] ∧
    (baseControllerWithItem.processNextWorkItem reconcilerSyncFails).2.getLast?
      = some (QueueCall.Done "k1") ∧
    QueueCall.adds (baseControllerWithItem.processNextWorkItem reconcilerSyncFails).2 = [] ∧
    (baseControllerWithItem.processNextWorkItem reconcilerSyncFails).2.take 2
      = [QueueCall.Get, QueueCall.ProcessObject "k1"] ∧
    QueueCall.syncs (baseControllerWithItem.processNextWorkItem reconcilerSyncFails).2 =
      (if (reconcilerSyncFails.ProcessObject [QueueCall.Get] "k1").2 = none then
        [(reconcilerSyncFails.ProcessObject [QueueCall.Get] "k1").1]
      else []) :=
  (processNextWorkItem_contract baseControllerWithItem reconcilerSyncFails).2 rfl

/-- C9: when the injected executor returns the output `o` and a non-nil error,
`Run` with `exitOnFail` returns the empty output and an error whose message
contains `command failed`, and `Run` without `exitOnFail` returns `o` and an
error whose message contains `SSH command failed`. -/
theorem run_executor_failure (s : SSHCommandRunner) (command : String)
    (environment : List (String × String)) (useControlMaster : Bool) (timeout : Option Nat)
    (overrideKeyPath overrideUser : String) (shutdownAfterRun : Bool)
    (o : String) (e : GoError)
    (hexec : s.runner "ssh"
      (s.sshArgs command environment useControlMaster timeout overrideKeyPath overrideUser
        shutdownAfterRun) = (o, some e)) :
    ((s.Run command true environment useControlMaster timeout overrideKeyPath overrideUser
        shutdownAfterRun).1 = "" ∧
      ∃ failure,
        (s.Run command true environment useControlMaster timeout overrideKeyPath overrideUser
          shutdownAfterRun).2 = some failure ∧
        strings.Contains failure.Error "command failed") ∧
    ((s.Run command false environment useControlMaster timeout overrideKeyPath overrideUser
        shutdownAfterRun).1 = o ∧
      ∃ failure,
        (s.Run command false environment useControlMaster timeout overrideKeyPath overrideUser
          shutdownAfterRun).2 = some failure ∧
        strings.Contains failure.Error "SSH command failed") := by
  unfold SSHCommandRunner.Run
  simp only [hexec, Option.isSome_some, if_true, errors.Wrap, Bool.false_eq_true, if_false]
  refine ⟨⟨trivial, _, rfl, ?_⟩, ⟨trivial, _, rfl, ?_⟩⟩
  · unfold strings.Contains GoError.Error
    rw [String.append_assoc, String.data_append]
    exact (List.prefix_append _ _).isInfix
  · unfold strings.Contains GoError.Error
    rw [String.append_assoc, String.data_append]
    exact (List.prefix_append _ _).isInfix

/-- Witness of C9 on the executor of the tests. -/
theorem run_executor_failure_witness :
    ((sshRunnerFailing.Run "echo hello" true [] true none "" "" false).1 = "" ∧
      ∃ failure,
        (sshRunnerFailing.Run "echo hello" true [] true none "" "" false).2 = some failure ∧
        strings.Contains failure.Error "command failed") ∧
    ((sshRunnerFailing.Run "echo hello" false [] true none "" "" false).1 = "error" ∧
      ∃ failure,
        (sshRunnerFailing.Run "echo hello" false [] true none "" "" false).2 = some failure ∧
        strings.Contains failure.Error "SSH command failed") :=
  run_executor_failure sshRunnerFailing "echo hello" [] true none "" "" false "error"
    (GoError.New "ssh failed") rfl

end Neutree
